import Mathlib

/-!
Verification of the command-line front end in mythril/interfaces/old_cli.py.

The Python module is shallowly embedded. Each pipeline function is translated
into a pure Lean function that returns the list of observable events of the
run: messages printed, log errors emitted, JSON documents written, backend
connections opened, input artifacts loaded, and process exits. Collaborator
modules that live outside the translated file (the disassembler, the
analyzer, the contract database, the signature service) are modelled as an
explicit environment record of pure functions and outcome switches, since
the source treats them as black boxes. Python truthiness of optional string
flags is modelled by truthyOpt, and the undefined attribute access args.i in
set_config is modelled as a raised AttributeError value.
-/

/-- Minimal JSON value tree, used to state the exact shape of the error
documents that exit_with_error serialises with json.dumps. -/
inductive Json where
  | str (s : String)
  | bool (b : Bool)
  | arr (xs : List Json)
  | obj (fields : List (String × Json))

/-- Observable events of one CLI invocation, in program order. -/
inductive Event where
  | usagePrinted
  | epicRun
  | printed (s : String)
  | logError (s : String)
  | jsonOut (j : Json)
  | configPathSet
  | rpcConnected (rpc : String) (tls : Bool)
  | leveldbOpened (dir : String)
  | dbSearched (expr : String)
  | truffleAnalyzed
  | bytecodeLoaded (code : String) (binRuntime : Bool)
  | addressLoaded (addr : String)
  | compiled (files : List String)
  | graphRendered
  | lasersFired
  | statespaceDumped
  | exited (status : Nat)

/-- Python exceptions that the translated code itself can raise and that the
generic handler in parse_args turns into a formatted traceback message. -/
inductive PyErr where
  | attributeError
  | indexError
deriving DecidableEq

/-- Placeholder text of traceback.format_exc for a raised exception. -/
def tracebackOf : PyErr → String
  | PyErr.attributeError => "Traceback: AttributeError: Namespace object has no attribute i"
  | PyErr.indexError => "Traceback: IndexError: list index out of range"

/-- One contract object as produced by the disassembler collaborator. The
fields code and creation_code are the hex strings the CLI tests for
truthiness, easm and creation_easm the rendered disassemblies. -/
structure Contract where
  code : String
  creation_code : String
  easm : String
  creation_easm : String

/-- Result of a successful load in get_code: the reported address and the
contracts list of the disassembler after the load. -/
structure Loaded where
  address : String
  contracts : List Contract

/-- The argparse namespace built by create_parser, with the declared
argparse defaults as field defaults. Note that no field i exists: the
source reads args.i in set_config although the parser never defines it. -/
structure Args where
  solidity_file : List String := []
  graph : Option String := none
  version : Bool := false
  fire_lasers : Bool := false
  truffle : Bool := false
  disassemble : Bool := false
  statespace_json : Option String := none
  code : Option String := none
  codefile : Option (List String) := none
  address : Option String := none
  dynld : Bool := false
  no_onchain_storage_access : Bool := false
  bin_runtime : Bool := false
  outform : String := "text"
  search : Option String := none
  leveldb_dir : Option String := none
  hash : Option String := none
  storage : Option String := none
  solv : Option String := none
  contract_hash_to_address : Option String := none
  modules : Option String := none
  max_depth : Int := 50
  strategy : String := "bfs"
  loop_bound : Int := 4
  transaction_count : Int := 2
  solver_timeout : Int := 10000
  execution_timeout : Int := 86400
  create_timeout : Int := 10
  solc_args : Option String := none
  phrack : Bool := false
  enable_physics : Bool := false
  v : Int := 2
  query_signature : Bool := false
  enable_iprof : Bool := false
  disable_dependency_pruning : Bool := false
  rpc : String := "infura-mainnet"
  rpctls : Bool := false
  epic : Bool := false

/-- Environment of collaborator behaviour: pure stand-ins for the black box
modules the CLI calls into, plus outcome switches for their failure modes
that the CLI handles explicitly. -/
structure Env where
  versionString : String
  decoderPresent : Bool
  hashSig : String → String
  defaultLeveldbDir : String
  contractLookup : String → Option String
  truffleBuildDirMissing : Bool
  loadBytecode : String → Bool → Loaded
  loadAddress : String → Loaded
  loadSolidity : List String → Loaded
  storageValue : String → String → String
  graphSaveError : Option String
  moduleLoadError : Option String
  statespaceSaveError : Option String
  reportRendered : String → String

/-- Python truthiness of an optional string flag: present and non-empty. -/
def truthyOpt : Option String → Bool
  | none => false
  | some s => s != ""

/-- Python truthiness of a plain string. -/
def truthyStr (s : String) : Bool := s != ""

/-- Python truthiness of an integer. -/
def truthyInt (n : Int) : Bool := n != 0

/-- Translation of exit_with_error: render the message in the requested
format, then call sys.exit, which terminates the process with status 0. -/
def exit_with_error (format_ : String) (message : String) : List Event :=
  (if format_ = "text" ∨ format_ = "markdown" then
    [Event.logError message]
  else if format_ = "json" then
    [Event.jsonOut (Json.obj
      [("success", Json.bool false), ("error", Json.str message), ("issues", Json.arr [])])]
  else
    [Event.jsonOut (Json.arr [Json.obj
      [("issues", Json.arr []),
       ("sourceType", Json.str ""),
       ("sourceFormat", Json.str ""),
       ("sourceList", Json.arr []),
       ("meta", Json.obj [("logs", Json.arr [Json.obj
         [("level", Json.str "error"),
          ("hidden", Json.bool true),
          ("msg", Json.str message)]])])]])]) ++ [Event.exited 0]

/-- Condition of the first guard in validate_args: at least one of the nine
flags listed there is truthy. -/
def modeFlagSet (args : Args) : Bool :=
  truthyOpt args.search || truthyOpt args.hash || args.disassemble ||
  truthyOpt args.graph || args.fire_lasers || truthyOpt args.storage ||
  args.truffle || truthyOpt args.statespace_json ||
  truthyOpt args.contract_hash_to_address

/-- Translation of validate_args. Returns some events when the function
terminates the process (usage, or a formatted error), none when validation
passes and control returns to parse_args. The coloredlogs installation is a
logging side effect with no observable event in scope and is not modelled. -/
def validate_args (env : Env) (args : Args) : Option (List Event) :=
  if modeFlagSet args = false then
    some [Event.usagePrinted, Event.exited 0]
  else if truthyInt args.v = true ∧ ¬ (0 ≤ args.v ∧ args.v < 6) then
    some (exit_with_error args.outform
      "Invalid -v value, you can find valid values in usage")
  else if args.query_signature = true ∧ env.decoderPresent = false then
    some (exit_with_error args.outform
      "The --query-signature function requires the python package ethereum-input-decoder")
  else if args.enable_iprof = true ∧ args.v < 4 then
    some (exit_with_error args.outform
      "--enable-iprof must be used with -v LOG_LEVEL where LOG_LEVEL >= 4")
  else if args.enable_iprof = true ∧
      ¬ (truthyOpt args.graph = true ∨ args.fire_lasers = true ∨
         truthyOpt args.statespace_json = true) then
    some (exit_with_error args.outform
      "--enable-iprof must be used with one of -g, --graph, -x, --fire-lasers, -j and --statespace-json")
  else
    none

/-- Translation of quick_commands: the hash utility prints the selector
computed by the static signature hashing collaborator and exits. -/
def quick_commands (env : Env) (args : Args) : Option (List Event) :=
  if truthyOpt args.hash = true then
    some [Event.printed (env.hashSig (args.hash.getD "")), Event.exited 0]
  else
    none

/-- Connection part of set_config: set_api_rpc when the address flag is
truthy, else set_api_leveldb when search or contract_hash_to_address is
truthy, else neither. -/
def connectEvents (env : Env) (args : Args) : List Event :=
  if truthyOpt args.address = true then
    [Event.rpcConnected args.rpc args.rpctls]
  else if truthyOpt args.search = true ∨ truthyOpt args.contract_hash_to_address = true then
    [Event.leveldbOpened
      (if truthyOpt args.leveldb_dir = true then args.leveldb_dir.getD ""
       else env.defaultLeveldbDir)]
  else
    []

/-- Translation of set_config. The guard of set_api_from_config_path is the
Python expression args.dynld or not args.no_onchain_storage_access and not
(args.rpc or args.i), evaluated with short-circuit semantics; reading the
never-defined attribute args.i raises AttributeError, which is modelled as
the error value. -/
def set_config (env : Env) (args : Args) : Except PyErr (List Event) :=
  if args.dynld = true then
    Except.ok (Event.configPathSet :: connectEvents env args)
  else if args.no_onchain_storage_access = true then
    Except.ok (connectEvents env args)
  else if truthyStr args.rpc = true then
    Except.ok (connectEvents env args)
  else
    Except.error PyErr.attributeError

/-- Translation of leveldb_search: database search or hash-to-address
lookup, each ending in sys.exit. Only AddressNotFoundError is handled
locally, with a plain printed message. -/
def leveldb_search (env : Env) (args : Args) : Option (List Event) :=
  if truthyOpt args.search = true ∨ truthyOpt args.contract_hash_to_address = true then
    some
      (if truthyOpt args.search = true then
        [Event.dbSearched (args.search.getD ""), Event.exited 0]
      else
        match env.contractLookup (args.contract_hash_to_address.getD "") with
        | some addr => [Event.printed addr, Event.exited 0]
        | none => [Event.printed "Address not found.", Event.exited 0])
  else
    none

/-- Strip a leading 0x prefix, as get_code does on literal and file input.
The prefix test is written over the character list so that it evaluates by
kernel reduction; it agrees with startsWith on the two-character prefix. -/
def strip0x (s : String) : String :=
  if s.data.take 2 = ['0', 'x'] then String.mk (s.data.drop 2) else s

/-- Whitespace test of the Python str.strip default character set. -/
def isSpaceChar (c : Char) : Bool :=
  c = ' ' ∨ c = '\t' ∨ c = '\n' ∨ c = '\r'

/-- Python str.strip over the character list: drop whitespace from both
ends. -/
def pyStrip (s : String) : String :=
  String.mk (((s.data.dropWhile isSpaceChar).reverse.dropWhile isSpaceChar).reverse)

/-- Concatenation of the stripped non-blank lines of the bytecode file. -/
def joinedLines (ls : List String) : String :=
  String.join ((ls.map pyStrip).filter (fun l => l != ""))

/-- Translation of get_code: resolve the input source by the fixed cascade
code, codefile, address, solidity files; the first truthy source wins. The
returned events record which load was performed; none as second component
means the function terminated the process through exit_with_error. -/
def get_code (env : Env) (args : Args) : List Event × Option Loaded :=
  if truthyOpt args.code = true then
    ([Event.bytecodeLoaded (strip0x (args.code.getD "")) args.bin_runtime],
      some (env.loadBytecode (strip0x (args.code.getD "")) args.bin_runtime))
  else if args.codefile.isSome = true then
    ([Event.bytecodeLoaded (strip0x (joinedLines (args.codefile.getD []))) args.bin_runtime],
      some (env.loadBytecode (strip0x (joinedLines (args.codefile.getD []))) args.bin_runtime))
  else if truthyOpt args.address = true then
    ([Event.addressLoaded (args.address.getD "")],
      some (env.loadAddress (args.address.getD "")))
  else if args.solidity_file ≠ [] then
    if truthyOpt args.graph = true ∧ 1 < args.solidity_file.length then
      (exit_with_error args.outform
        "Cannot generate call graphs from multiple input files. Please do it one at a time.",
       none)
    else
      ([Event.compiled args.solidity_file], some (env.loadSolidity args.solidity_file))
  else
    (exit_with_error args.outform
      "No input bytecode. Please provide EVM code via -c BYTECODE, -a ADDRESS, or -i SOLIDITY_FILES",
     none)

/-- Translation of execute_command. The MythrilAnalyzer construction is a
pure object construction with no observable event. An empty contracts list
in the disassemble branch raises IndexError at the subscript, modelled as
the error value, which the caller turns into the generic traceback
envelope. -/
def execute_command (env : Env) (args : Args) (st : Loaded) : Except PyErr (List Event) :=
  if truthyOpt args.storage = true then
    if truthyOpt args.address = false then
      Except.ok (exit_with_error args.outform
        "To read storage, provide the address of a deployed contract with the -a option.")
    else
      Except.ok [Event.printed (env.storageValue st.address (args.storage.getD "")),
        Event.exited 0]
  else if args.disassemble = true then
    match st.contracts with
    | [] => Except.error PyErr.indexError
    | c :: _ =>
      Except.ok
        ((if c.code ≠ "" then
            [Event.printed ("Runtime Disassembly: \n" ++ c.easm)] else []) ++
         (if c.creation_code ≠ "" then
            [Event.printed ("Disassembly: \n" ++ c.creation_easm)] else []) ++
         [Event.exited 0])
  else if truthyOpt args.graph = true ∨ args.fire_lasers = true then
    if st.contracts.isEmpty = true then
      Except.ok (exit_with_error args.outform
        "input files do not contain any valid contracts")
    else if truthyOpt args.graph = true then
      match env.graphSaveError with
      | some e =>
        Except.ok (Event.graphRendered ::
          exit_with_error args.outform ("Error saving graph: " ++ e))
      | none => Except.ok [Event.graphRendered, Event.exited 0]
    else
      match env.moduleLoadError with
      | some e =>
        Except.ok (exit_with_error args.outform
          ("Error loading analyis modules: " ++ e))
      | none =>
        Except.ok [Event.lasersFired,
          Event.printed (env.reportRendered args.outform), Event.exited 0]
  else if truthyOpt args.statespace_json = true then
    if st.contracts.isEmpty = true then
      Except.ok (exit_with_error args.outform
        "input files do not contain any valid contracts")
    else
      match env.statespaceSaveError with
      | some e =>
        Except.ok (Event.statespaceDumped ::
          exit_with_error args.outform ("Error saving json: " ++ e))
      | none => Except.ok [Event.statespaceDumped, Event.exited 0]
  else
    Except.ok [Event.usagePrinted, Event.exited 0]

/-- Version branch of parse_args: JSON or plain version string, then exit. -/
def versionEvents (env : Env) (args : Args) : List Event :=
  if args.outform = "json" then
    [Event.jsonOut (Json.obj [("version_str", Json.str env.versionString)]), Event.exited 0]
  else
    [Event.printed ("Mythril version " ++ env.versionString), Event.exited 0]

/-- Truffle branch of parse_args: FileNotFoundError from the collaborator is
handled locally with a friendly printed message; either way sys.exit runs.
The quotation marks around truffle compile in the original message are
elided. -/
def truffleEvents (env : Env) (_args : Args) : List Event :=
  if env.truffleBuildDirMissing = true then
    [Event.printed "Build directory not found. Make sure that you start the analysis from the project root, and that truffle compile has executed successfully.",
     Event.exited 0]
  else
    [Event.truffleAnalyzed, Event.exited 0]

/-- Translation of parse_args, the orchestrator: epic re-invocation, then
version, then validation, then the guarded pipeline whose Python exceptions
are caught and rendered through exit_with_error with a traceback message.
Successful completion of execute_command falls off main, which terminates
the interpreter with status 0; that exit is part of the returned events of
execute_command. -/
def parse_args (env : Env) (args : Args) : List Event :=
  if args.epic = true then
    [Event.epicRun, Event.exited 0]
  else if args.version = true then
    versionEvents env args
  else
    match validate_args env args with
    | some evs => evs
    | none =>
      match quick_commands env args with
      | some evs => evs
      | none =>
        match set_config env args with
        | Except.error e => exit_with_error args.outform (tracebackOf e)
        | Except.ok cfg =>
          match leveldb_search env args with
          | some evs => cfg ++ evs
          | none =>
            if args.truffle = true then
              cfg ++ truffleEvents env args
            else
              match get_code env args with
              | (evs, none) => cfg ++ evs
              | (evs, some st) =>
                match execute_command env args st with
                | Except.error e =>
                  cfg ++ evs ++ exit_with_error args.outform (tracebackOf e)
                | Except.ok evs2 => cfg ++ evs ++ evs2

/-- The closed Mode enumeration of the specification. -/
inductive Mode where
  | epicEscape
  | version
  | help
  | hashLookup
  | databaseSearch
  | addressLookup
  | truffleProject
  | storageRead
  | disassemble
  | graphExport
  | analyze
  | statespaceExport
deriving DecidableEq

/-- The active Mode of an argument set, read off the dispatch priority of
parse_args and execute_command: epic, then version, then usage when no mode
flag is set, then hash, then the database commands, then truffle, then the
input-dependent branch order storage, disassemble, graph, lasers,
statespace. -/
def modeOf (args : Args) : Mode :=
  if args.epic = true then Mode.epicEscape
  else if args.version = true then Mode.version
  else if modeFlagSet args = false then Mode.help
  else if truthyOpt args.hash = true then Mode.hashLookup
  else if truthyOpt args.search = true then Mode.databaseSearch
  else if truthyOpt args.contract_hash_to_address = true then Mode.addressLookup
  else if args.truffle = true then Mode.truffleProject
  else if truthyOpt args.storage = true then Mode.storageRead
  else if args.disassemble = true then Mode.disassemble
  else if truthyOpt args.graph = true then Mode.graphExport
  else if args.fire_lasers = true then Mode.analyze
  else if truthyOpt args.statespace_json = true then Mode.statespaceExport
  else Mode.help

/-- Backend events: the three configuration calls of set_config. -/
def isBackendEvent : Event → Bool
  | Event.configPathSet => true
  | Event.rpcConnected _ _ => true
  | Event.leveldbOpened _ => true
  | _ => false

/-- Input resolution events: the three load calls of get_code. -/
def isInputEvent : Event → Bool
  | Event.bytecodeLoaded _ _ => true
  | Event.addressLoaded _ => true
  | Event.compiled _ => true
  | _ => false

/-- Connection events proper: an RPC connection or a LevelDB handle. -/
def isConnEvent : Event → Bool
  | Event.rpcConnected _ _ => true
  | Event.leveldbOpened _ => true
  | _ => false

/-- Error renderings of exit_with_error: a logged error or a JSON error
document. -/
def isErrorRendering : Event → Bool
  | Event.logError _ => true
  | Event.jsonOut _ => true
  | _ => false

/-- Boolean success test for an Except result of the pipeline. -/
def isOkE : Except PyErr (List Event) → Bool
  | Except.ok _ => true
  | Except.error _ => false

/-- Argument set with every flag at its argparse default. -/
def defaultArgs : Args := {}

/-- Concrete collaborator environment used by witnesses: every collaborator
succeeds, the database contains no contract hashes. -/
def env0 : Env where
  versionString := "0.21.3"
  decoderPresent := true
  hashSig := fun s => "0x" ++ s.take 8
  defaultLeveldbDir := "default-leveldb"
  contractLookup := fun _ => none
  truffleBuildDirMissing := false
  loadBytecode := fun c _ =>
    { address := "0x0",
      contracts := [{ code := c, creation_code := c,
                      easm := "PUSH1 0x60", creation_easm := "PUSH1 0x60" }] }
  loadAddress := fun a =>
    { address := a,
      contracts := [{ code := "6060", creation_code := "",
                      easm := "PUSH1 0x60", creation_easm := "" }] }
  loadSolidity := fun _ =>
    { address := "0x1",
      contracts := [{ code := "6060", creation_code := "6060",
                      easm := "PUSH1 0x60", creation_easm := "PUSH1 0x60" }] }
  storageValue := fun _ _ => "0x0"
  graphSaveError := none
  moduleLoadError := none
  statespaceSaveError := none
  reportRendered := fun f => "report-" ++ f

/-- Argument set with both the literal bytecode flag and the bytecode file
flag set. -/
def argsC2 : Args := { code := some "0x06", codefile := some ["dead"] }

/-- Argument set selecting only a database search. -/
def argsSearchOnly : Args := { search := some "money" }

/-- Argument set selecting a database search together with an on-chain
address input flag. -/
def argsSearchAddr : Args := { search := some "money", address := some "0xdead" }

/-- Argument set with the instruction profiler requested at the default
verbosity of 2 and no other flag at all. -/
def argsC5 : Args := { enable_iprof := true }

/-- Argument set with the instruction profiler requested at verbosity 2
together with the analyze mode flag. -/
def argsC5w : Args := { enable_iprof := true, fire_lasers := true }

/-- Argument set requesting graph export over two solidity files. -/
def argsMultiSol : Args := { graph := some "out.html", solidity_file := ["a.sol", "b.sol"] }

/-- Argument set selecting the truffle project mode. -/
def argsTruffle : Args := { truffle := true }

/-- Environment in which the truffle collaborator raises
FileNotFoundError for a missing build directory. -/
def envTruffleMissing : Env := { env0 with truffleBuildDirMissing := true }

/-- Argument set requesting the hash-to-address lookup of a hash that the
env0 database does not contain. -/
def argsChta : Args := { contract_hash_to_address := some "deadbeef" }

/-- Argument set disassembling a literal bytecode string. -/
def argsDisasm : Args := { disassemble := true, code := some "6060604052" }

/-- Environment in which the disassembler returns a contract whose runtime
and creation code strings are both empty. -/
def envEmptyContract : Env :=
  { env0 with loadBytecode := fun _ _ =>
      { address := "0x0",
        contracts := [{ code := "", creation_code := "", easm := "", creation_easm := "" }] } }

/-- Argument set requesting the selector of a transfer signature. -/
def argsHashA : Args := { hash := some "transfer(address,uint256)" }

/-- Same hash lookup with a different verbosity level. -/
def argsHashB : Args := { hash := some "transfer(address,uint256)", v := 3 }

/-- Argument set with an empty rpc string, dependency loading not requested
and on-chain storage access not disabled; analyze mode so that the pipeline
reaches set_config. -/
def argsRpcEmpty : Args := { rpc := "", fire_lasers := true }

/-- Every rendering branch of exit_with_error emits exactly one error
rendering followed by the status-0 exit. -/
theorem exit_with_error_one_rendering (fmt msg : String) :
    ∃ r, isErrorRendering r = true ∧ exit_with_error fmt msg = [r, Event.exited 0] := by
  unfold exit_with_error
  split
  · refine ⟨_, ?_, rfl⟩; rfl
  · split
    · refine ⟨_, ?_, rfl⟩; rfl
    · refine ⟨_, ?_, rfl⟩; rfl

/-- Every event of an exit_with_error trace is an error rendering or the
exit itself. -/
theorem mem_exit_with_error (fmt msg : String) (e : Event)
    (h : e ∈ exit_with_error fmt msg) :
    isErrorRendering e = true ∨ e = Event.exited 0 := by
  obtain ⟨r, hr, hsh⟩ := exit_with_error_one_rendering fmt msg
  rw [hsh] at h
  simp only [List.mem_cons, List.mem_singleton, List.not_mem_nil, or_false] at h
  rcases h with rfl | rfl
  · exact Or.inl hr
  · exact Or.inr rfl

/-- No event of an exit_with_error trace is a backend connection or an
input resolution. -/
theorem exit_with_error_no_resolution (fmt msg : String) (e : Event)
    (h : e ∈ exit_with_error fmt msg) :
    isBackendEvent e = false ∧ isInputEvent e = false := by
  rcases mem_exit_with_error fmt msg e h with hr | rfl
  · cases e <;> simp_all [isErrorRendering, isBackendEvent, isInputEvent]
  · exact ⟨rfl, rfl⟩

/-- Shape of an exiting validate_args result: the usage exit or a formatted
error exit. -/
theorem validate_args_some_shape (env : Env) (args : Args) (evs : List Event)
    (h : validate_args env args = some evs) :
    evs = [Event.usagePrinted, Event.exited 0] ∨
    ∃ msg, evs = exit_with_error args.outform msg := by
  unfold validate_args at h
  split at h
  · exact Or.inl (by injection h with h2; exact h2.symm)
  · split at h
    · exact Or.inr ⟨_, by injection h with h2; exact h2.symm⟩
    · split at h
      · exact Or.inr ⟨_, by injection h with h2; exact h2.symm⟩
      · split at h
        · exact Or.inr ⟨_, by injection h with h2; exact h2.symm⟩
        · split at h
          · exact Or.inr ⟨_, by injection h with h2; exact h2.symm⟩
          · exact absurd h (by simp)

/-- C1: for every output format the error reporting primitive writes
exactly one format-specific rendering — a logged message for text and
markdown, the exact success-false object for json, the single-element list
carrying the message under meta.logs for jsonv2 — and then terminates the
process with exit status 0; in the trace model control never returns
because the status-0 exit is always the last event. -/
theorem exit_with_error_formats_and_exit (fmt msg : String) :
    exit_with_error "text" msg = [Event.logError msg, Event.exited 0] ∧
    exit_with_error "markdown" msg = [Event.logError msg, Event.exited 0] ∧
    exit_with_error "json" msg =
      [Event.jsonOut (Json.obj
        [("success", Json.bool false), ("error", Json.str msg), ("issues", Json.arr [])]),
       Event.exited 0] ∧
    exit_with_error "jsonv2" msg =
      [Event.jsonOut (Json.arr [Json.obj
        [("issues", Json.arr []),
         ("sourceType", Json.str ""),
         ("sourceFormat", Json.str ""),
         ("sourceList", Json.arr []),
         ("meta", Json.obj [("logs", Json.arr [Json.obj
           [("level", Json.str "error"),
            ("hidden", Json.bool true),
            ("msg", Json.str msg)]])])]]),
       Event.exited 0] ∧
    (∃ r, isErrorRendering r = true ∧ exit_with_error fmt msg = [r, Event.exited 0]) := by
  exact ⟨rfl, rfl, rfl, rfl, exit_with_error_one_rendering fmt msg⟩

/-- C2: get_code consults the four input sources in the fixed order literal
bytecode, bytecode file, on-chain address, solidity files; the first truthy
source wins and all later sources are ignored even if also present. In
particular a truthy literal bytecode flag always resolves to the literal
bytecode with any leading 0x prefix stripped, regardless of every other
flag. -/
theorem get_code_precedence (env : Env) (args : Args) :
    (truthyOpt args.code = true →
      get_code env args =
        ([Event.bytecodeLoaded (strip0x (args.code.getD "")) args.bin_runtime],
         some (env.loadBytecode (strip0x (args.code.getD "")) args.bin_runtime))) ∧
    (truthyOpt args.code = false → args.codefile.isSome = true →
      get_code env args =
        ([Event.bytecodeLoaded (strip0x (joinedLines (args.codefile.getD []))) args.bin_runtime],
         some (env.loadBytecode (strip0x (joinedLines (args.codefile.getD []))) args.bin_runtime))) ∧
    (truthyOpt args.code = false → args.codefile.isSome = false →
      truthyOpt args.address = true →
      get_code env args =
        ([Event.addressLoaded (args.address.getD "")],
         some (env.loadAddress (args.address.getD "")))) ∧
    (truthyOpt args.code = false → args.codefile.isSome = false →
      truthyOpt args.address = false → args.solidity_file ≠ [] →
      ¬ (truthyOpt args.graph = true ∧ 1 < args.solidity_file.length) →
      get_code env args =
        ([Event.compiled args.solidity_file], some (env.loadSolidity args.solidity_file))) := by
  refine ⟨fun h1 => ?_, fun h1 h2 => ?_, fun h1 h2 h3 => ?_, fun h1 h2 h3 h4 h5 => ?_⟩
  · simp [get_code, h1]
  · simp [get_code, h1, h2]
  · simp [get_code, h1, h2, h3]
  · simp [get_code, h1, h2, h3, h4, h5]

/-- C2 witness: with both the literal bytecode flag and the bytecode file
flag set, the literal bytecode wins, 0x prefix stripped, and the bytecode
file is never read. -/
theorem get_code_precedence_witness :
    get_code env0 argsC2 =
      ([Event.bytecodeLoaded "06" false], some (env0.loadBytecode "06" false)) :=
  (get_code_precedence env0 argsC2).1 rfl

/-- Case analysis of the connection step of set_config: an RPC connection
exactly when the address flag is truthy, else a LevelDB handle exactly when
search or contract_hash_to_address is truthy, else nothing. -/
theorem connectEvents_cases (env : Env) (args : Args) :
    (truthyOpt args.address = true ∧
      connectEvents env args = [Event.rpcConnected args.rpc args.rpctls]) ∨
    (truthyOpt args.address = false ∧
      (truthyOpt args.search = true ∨ truthyOpt args.contract_hash_to_address = true) ∧
      ∃ d, connectEvents env args = [Event.leveldbOpened d]) ∨
    (truthyOpt args.address = false ∧
      truthyOpt args.search = false ∧ truthyOpt args.contract_hash_to_address = false ∧
      connectEvents env args = []) := by
  by_cases ha : truthyOpt args.address = true
  · exact Or.inl ⟨ha, by simp [connectEvents, ha]⟩
  · have ha2 : truthyOpt args.address = false := by
      cases h : truthyOpt args.address
      · rfl
      · exact absurd h ha
    by_cases hs : truthyOpt args.search = true ∨ truthyOpt args.contract_hash_to_address = true
    · refine Or.inr (Or.inl ⟨ha2, hs,
        (if truthyOpt args.leveldb_dir = true then args.leveldb_dir.getD ""
         else env.defaultLeveldbDir), ?_⟩)
      simp [connectEvents, ha2, hs]
    · push_neg at hs
      have hs1 : truthyOpt args.search = false := by
        cases h : truthyOpt args.search
        · rfl
        · exact absurd h hs.1
      have hs2 : truthyOpt args.contract_hash_to_address = false := by
        cases h : truthyOpt args.contract_hash_to_address
        · rfl
        · exact absurd h hs.2
      refine Or.inr (Or.inr ⟨ha2, hs1, hs2, ?_⟩)
      simp [connectEvents, ha2, hs1, hs2]

/-- A successful set_config emits the connection events, possibly prefixed
by the configuration-path step. -/
theorem set_config_ok_shape (env : Env) (args : Args) (evs : List Event)
    (h : set_config env args = Except.ok evs) :
    evs = connectEvents env args ∨
    evs = Event.configPathSet :: connectEvents env args := by
  unfold set_config at h
  split at h
  · exact Or.inr (by injection h with h2; exact h2.symm)
  · split at h
    · exact Or.inl (by injection h with h2; exact h2.symm)
    · split at h
      · exact Or.inl (by injection h with h2; exact h2.symm)
      · exact absurd h (by simp)

/-- Every event a successful set_config emits is a backend event. -/
theorem set_config_ok_backend (env : Env) (args : Args) (evs : List Event)
    (h : set_config env args = Except.ok evs) (e : Event) (he : e ∈ evs) :
    isBackendEvent e = true := by
  have hconn : ∀ x ∈ connectEvents env args, isBackendEvent x = true := by
    intro x hx
    rcases connectEvents_cases env args with ⟨_, hc⟩ | ⟨_, _, d, hc⟩ | ⟨_, _, _, hc⟩ <;>
      rw [hc] at hx <;> simp_all [isBackendEvent]
  rcases set_config_ok_shape env args evs h with hsh | hsh
  · exact hconn e (hsh ▸ he)
  · rw [hsh] at he
    rcases List.mem_cons.mp he with rfl | hin
    · rfl
    · exact hconn e hin

/-- C3 counterexample: the established backend is not a function of the
active Mode. With only the search flag the mode is DatabaseSearch and
set_config opens the database, but adding the address input flag keeps the
mode DatabaseSearch while set_config now establishes the RPC connection
instead. -/
theorem set_config_backend_counterexample :
    modeOf argsSearchOnly = Mode.databaseSearch ∧
    modeOf argsSearchAddr = Mode.databaseSearch ∧
    set_config env0 argsSearchOnly = Except.ok [Event.leveldbOpened "default-leveldb"] ∧
    set_config env0 argsSearchAddr = Except.ok [Event.rpcConnected "infura-mainnet" false] :=
  ⟨rfl, rfl, rfl, rfl⟩

/-- C3 amended: in every invocation set_config establishes at most one
backend connection, never both; the LevelDB connection is opened exactly
when the address flag is not truthy and search or contract-hash-to-address
is truthy, and the RPC connection exactly when the address flag is truthy —
so selection is driven by the presence of the address input flag, not
solely by the active Mode. -/
theorem set_config_backend_amended (env : Env) (args : Args) (evs : List Event)
    (h : set_config env args = Except.ok evs) :
    (evs.filter isConnEvent).length ≤ 1 ∧
    ((∃ d, Event.leveldbOpened d ∈ evs) ↔
      (truthyOpt args.address = false ∧
        (truthyOpt args.search = true ∨ truthyOpt args.contract_hash_to_address = true))) ∧
    ((∃ r t, Event.rpcConnected r t ∈ evs) ↔ truthyOpt args.address = true) := by
  have hsh := set_config_ok_shape env args evs h
  rcases connectEvents_cases env args with ⟨ha, hc⟩ | ⟨ha, hflag, d, hc⟩ | ⟨ha, hs1, hs2, hc⟩ <;>
    rcases hsh with rfl | rfl <;>
    rw [hc] <;>
    simp_all [isConnEvent]

/-- C3 witness: instantiation of the amended theorem at the search-only
argument set. -/
theorem set_config_backend_witness :
    (([Event.leveldbOpened "default-leveldb"].filter isConnEvent).length ≤ 1) :=
  (set_config_backend_amended env0 argsSearchOnly [Event.leveldbOpened "default-leveldb"] rfl).1

/-- Condition that no Mode-selecting flag at all is present: not the hidden
epic escape hatch, not the version command, and none of the nine mode flags
checked by validate_args. -/
def noModeFlag (args : Args) : Bool :=
  !args.epic && !args.version && !(modeFlagSet args)

/-- C4: flag validation runs to completion before any backend connection is
opened or any input source is resolved — a trace containing a backend or
input event can only come from a run in which validate_args passed — and an
argument set with no mode flag prints the usage text and exits with a trace
that performs no backend or input resolution at all. -/
theorem validation_precedes_resolution (env : Env) (args : Args) :
    ((∃ e ∈ parse_args env args, isBackendEvent e = true ∨ isInputEvent e = true) →
      validate_args env args = none) ∧
    (noModeFlag args = true →
      parse_args env args = [Event.usagePrinted, Event.exited 0]) := by
  constructor
  · rintro ⟨e, he, hbe⟩
    by_cases hep : args.epic = true
    · rw [parse_args] at he
      simp only [hep, if_true] at he
      simp only [List.mem_cons, List.not_mem_nil, or_false] at he
      rcases he with rfl | rfl <;> simp [isBackendEvent, isInputEvent] at hbe
    · have hep2 : args.epic = false := by
        cases h : args.epic
        · rfl
        · exact absurd h hep
      by_cases hver : args.version = true
      · rw [parse_args] at he
        simp only [hep2, hver, if_true, Bool.false_eq_true, if_false] at he
        rw [versionEvents] at he
        split at he <;>
          (simp only [List.mem_cons, List.not_mem_nil, or_false] at he
           rcases he with rfl | rfl <;> simp [isBackendEvent, isInputEvent] at hbe)
      · have hver2 : args.version = false := by
          cases h : args.version
          · rfl
          · exact absurd h hver
        cases hval : validate_args env args with
        | none => rfl
        | some evs =>
          rw [parse_args] at he
          simp only [hep2, hver2, Bool.false_eq_true, if_false] at he
          rw [hval] at he
          rcases validate_args_some_shape env args evs hval with rfl | ⟨msg, rfl⟩
          · simp only [List.mem_cons, List.not_mem_nil, or_false] at he
            rcases he with rfl | rfl <;> simp [isBackendEvent, isInputEvent] at hbe
          · rcases exit_with_error_no_resolution args.outform msg e he with ⟨hb, hi⟩
            rcases hbe with hbe | hbe
            · rw [hb] at hbe; exact absurd hbe (by simp)
            · rw [hi] at hbe; exact absurd hbe (by simp)
  · intro hn
    have h1 : args.epic = false := by
      cases h : args.epic
      · rfl
      · rw [noModeFlag, h] at hn; simp at hn
    have h2 : args.version = false := by
      cases h : args.version
      · rfl
      · rw [noModeFlag, h] at hn; simp at hn
    have h3 : modeFlagSet args = false := by
      cases h : modeFlagSet args
      · rfl
      · rw [noModeFlag, h] at hn; simp at hn
    have hval : validate_args env args = some [Event.usagePrinted, Event.exited 0] := by
      rw [validate_args]; simp [h3]
    rw [parse_args]
    simp only [h1, h2, Bool.false_eq_true, if_false]
    rw [hval]

/-- C4 witness: the all-defaults argument set has no mode flag, prints
usage and exits with no backend or input event. -/
theorem validation_precedes_resolution_witness :
    parse_args env0 defaultArgs = [Event.usagePrinted, Event.exited 0] :=
  (validation_precedes_resolution env0 defaultArgs).2 rfl

/-- C5 counterexample: enable-iprof with verbosity 2 and no graph, analyze
or statespace flag is not always fatal — with no mode flag at all the run
prints usage and exits with no formatted configuration error, so the claim
fails for argument sets whose only flag is the profiler switch. -/
theorem iprof_violation_counterexample :
    argsC5.enable_iprof = true ∧ argsC5.v = 2 ∧
    truthyOpt argsC5.graph = false ∧ argsC5.fire_lasers = false ∧
    truthyOpt argsC5.statespace_json = false ∧
    parse_args env0 argsC5 = [Event.usagePrinted, Event.exited 0] ∧
    (parse_args env0 argsC5).countP (fun e => isErrorRendering e) = 0 :=
  ⟨rfl, rfl, rfl, rfl, rfl, rfl, rfl⟩

/-- C5 amended: for every argument set that has the instruction profiler
flag, at least one mode flag, and neither the epic nor the version command,
and that does not satisfy both verbosity at least 4 and one of graph,
analyze, statespace-export, the run terminates through a formatted error
rendering of exit_with_error. -/
theorem iprof_violation_fatal (env : Env) (args : Args)
    (hm : modeFlagSet args = true) (hep : args.epic = false) (hver : args.version = false)
    (hi : args.enable_iprof = true)
    (hbad : ¬ (4 ≤ args.v ∧ (truthyOpt args.graph = true ∨ args.fire_lasers = true ∨
      truthyOpt args.statespace_json = true))) :
    (parse_args env args).any (fun e => isErrorRendering e) = true ∧
    ∃ msg, parse_args env args = exit_with_error args.outform msg := by
  have hva : ∃ msg, validate_args env args = some (exit_with_error args.outform msg) := by
    rw [validate_args]
    have hm2 : ¬ (modeFlagSet args = false) := by rw [hm]; simp
    by_cases h2 : truthyInt args.v = true ∧ ¬ (0 ≤ args.v ∧ args.v < 6)
    · exact ⟨"Invalid -v value, you can find valid values in usage",
        by simp only [if_neg hm2, if_pos h2]⟩
    · by_cases h3 : args.query_signature = true ∧ env.decoderPresent = false
      · exact ⟨"The --query-signature function requires the python package ethereum-input-decoder",
          by simp only [if_neg hm2, if_neg h2, if_pos h3]⟩
      · by_cases h4 : args.v < 4
        · exact ⟨"--enable-iprof must be used with -v LOG_LEVEL where LOG_LEVEL >= 4",
            by simp only [if_neg hm2, if_neg h2, if_neg h3, if_pos (And.intro hi h4)]⟩
        · have hor : ¬ (truthyOpt args.graph = true ∨ args.fire_lasers = true ∨
              truthyOpt args.statespace_json = true) :=
            fun hc => hbad ⟨Int.not_lt.mp h4, hc⟩
          have h5 : ¬ (args.enable_iprof = true ∧ args.v < 4) := fun hc => h4 hc.2
          exact ⟨"--enable-iprof must be used with one of -g, --graph, -x, --fire-lasers, -j and --statespace-json",
            by simp only [if_neg hm2, if_neg h2, if_neg h3, if_neg h5,
              if_pos (And.intro hi hor)]⟩
  obtain ⟨msg, hva⟩ := hva
  have hpa : parse_args env args = exit_with_error args.outform msg := by
    rw [parse_args]
    simp only [hep, hver, Bool.false_eq_true, if_false]
    rw [hva]
  refine ⟨?_, msg, hpa⟩
  rw [hpa]
  obtain ⟨r, hr, hsh⟩ := exit_with_error_one_rendering args.outform msg
  rw [hsh]
  simp [hr]

/-- C5 witness: instantiation at enable-iprof with verbosity 2 and the
analyze mode flag, where the run ends in a formatted error rendering. -/
theorem iprof_violation_fatal_witness :
    (parse_args env0 argsC5w).any (fun e => isErrorRendering e) = true :=
  (iprof_violation_fatal env0 argsC5w rfl rfl rfl rfl (by decide)).1

/-- C6: when no higher-precedence input source is present and graph export
is requested together with more than one solidity file, get_code terminates
through the formatted multiple-files error and no compilation event ever
appears in its trace. -/
theorem graph_multifile_error (env : Env) (args : Args)
    (h1 : truthyOpt args.code = false) (h2 : args.codefile.isSome = false)
    (h3 : truthyOpt args.address = false) (h4 : truthyOpt args.graph = true)
    (h5 : 1 < args.solidity_file.length) :
    get_code env args =
      (exit_with_error args.outform
        "Cannot generate call graphs from multiple input files. Please do it one at a time.",
       none) ∧
    (∀ fs, Event.compiled fs ∉ (get_code env args).1) := by
  have hne : args.solidity_file ≠ [] := by
    intro hnil
    rw [hnil] at h5
    simp at h5
  have hg : get_code env args =
      (exit_with_error args.outform
        "Cannot generate call graphs from multiple input files. Please do it one at a time.",
       none) := by
    simp [get_code, h1, h2, h3, hne, h4, h5]
  refine ⟨hg, fun fs hmem => ?_⟩
  rw [hg] at hmem
  rcases mem_exit_with_error args.outform _ _ hmem with hr | hx
  · cases hr
  · cases hx

/-- C6 witness: two solidity files together with the graph flag produce the
formatted error and no compilation. -/
theorem graph_multifile_error_witness :
    get_code env0 argsMultiSol =
      (exit_with_error "text"
        "Cannot generate call graphs from multiple input files. Please do it one at a time.",
       none) :=
  (graph_multifile_error env0 argsMultiSol rfl rfl rfl rfl (by decide)).1

/-- C7 counterexample: the lookup-not-found error is not the only error
handled locally instead of funneling to the formatter — a truffle run whose
collaborator raises FileNotFoundError also prints a plain local message and
exits without any formatted error rendering, and that run performs no
hash-to-address lookup at all. -/
theorem local_handling_counterexample :
    argsTruffle.contract_hash_to_address = none ∧
    parse_args envTruffleMissing argsTruffle =
      [Event.printed "Build directory not found. Make sure that you start the analysis from the project root, and that truffle compile has executed successfully.",
       Event.exited 0] ∧
    (parse_args envTruffleMissing argsTruffle).countP (fun e => isErrorRendering e) = 0 :=
  ⟨rfl, rfl, rfl⟩

/-- C7 amended: an address-lookup invocation whose contract hash is absent
from the database prints exactly the plain message Address not found and
exits with status 0, with no formatted error envelope anywhere in the
trace; this local handling is shared only with the truffle
missing-build-directory message, every other failure funnels through the
formatter. -/
theorem address_lookup_not_found (env : Env) (args : Args) (cfg : List Event)
    (hep : args.epic = false) (hver : args.version = false)
    (hval : validate_args env args = none)
    (hh : truthyOpt args.hash = false)
    (hs : truthyOpt args.search = false)
    (hc : truthyOpt args.contract_hash_to_address = true)
    (hcfg : set_config env args = Except.ok cfg)
    (hnf : env.contractLookup (args.contract_hash_to_address.getD "") = none) :
    parse_args env args = cfg ++ [Event.printed "Address not found.", Event.exited 0] ∧
    (∀ m, Event.logError m ∉ parse_args env args) ∧
    (∀ j, Event.jsonOut j ∉ parse_args env args) ∧
    (parse_args env args).getLast? = some (Event.exited 0) := by
  have hq : quick_commands env args = none := by
    rw [quick_commands]
    simp [hh]
  have hls : leveldb_search env args =
      some [Event.printed "Address not found.", Event.exited 0] := by
    rw [leveldb_search]
    simp [hs, hc, hnf]
  have hpa : parse_args env args =
      cfg ++ [Event.printed "Address not found.", Event.exited 0] := by
    rw [parse_args]
    simp only [hep, hver, Bool.false_eq_true, if_false]
    rw [hval, hq, hcfg, hls]
  have hcfgmem : ∀ e ∈ cfg, isBackendEvent e = true :=
    fun e he => set_config_ok_backend env args cfg hcfg e he
  refine ⟨hpa, fun m hm => ?_, fun j hj => ?_, ?_⟩
  · rw [hpa] at hm
    rcases List.mem_append.mp hm with hin | hin
    · have := hcfgmem _ hin
      cases this
    · simp at hin
  · rw [hpa] at hj
    rcases List.mem_append.mp hj with hin | hin
    · have := hcfgmem _ hin
      cases this
    · simp at hin
  · rw [hpa]
    rw [List.getLast?_append_cons]
    rfl

/-- C7 witness: instantiation at a concrete hash absent from the database:
the trace is the database open followed by the plain message and the exit. -/
theorem address_lookup_not_found_witness :
    parse_args env0 argsChta =
      [Event.leveldbOpened "default-leveldb"] ++
        [Event.printed "Address not found.", Event.exited 0] :=
  (address_lookup_not_found env0 argsChta [Event.leveldbOpened "default-leveldb"]
    rfl rfl rfl rfl rfl rfl rfl rfl).1

/-- The runtime disassembly header and the creation disassembly header can
never collide, whatever follows them: their first characters differ. -/
theorem runtime_header_ne (s t : String) :
    ("Runtime Disassembly: \n" ++ s) ≠ ("Disassembly: \n" ++ t) := by
  intro h
  have h2 : ("Runtime Disassembly: \n" ++ s).data = ("Disassembly: \n" ++ t).data := by
    rw [h]
  rw [String.data_append, String.data_append] at h2
  have h3 := congrArg List.head? h2
  simp at h3

/-- Symmetric form of the header disequality. -/
theorem creation_header_ne (s t : String) :
    ("Disassembly: \n" ++ s) ≠ ("Runtime Disassembly: \n" ++ t) :=
  fun h => runtime_header_ne t s h.symm

/-- C8 amended: in Disassemble mode the run prints the runtime disassembly
section if and only if the first contract carries runtime code, and the
creation disassembly section if and only if it carries creation code, with
no error rendering; when neither code field is present the branch succeeds
with no disassembly section at all — the code does not enforce that at
least one section exists. -/
theorem disassemble_sections (env : Env) (args : Args) (st : Loaded)
    (c : Contract) (tl : List Contract)
    (hs : truthyOpt args.storage = false) (hd : args.disassemble = true)
    (hcs : st.contracts = c :: tl) :
    isOkE (execute_command env args st) = true ∧
    ∃ evs, execute_command env args st = Except.ok evs ∧
      ((∃ s, Event.printed ("Runtime Disassembly: \n" ++ s) ∈ evs) ↔ c.code ≠ "") ∧
      ((∃ s, Event.printed ("Disassembly: \n" ++ s) ∈ evs) ↔ c.creation_code ≠ "") ∧
      evs.countP (fun e => isErrorRendering e) = 0 := by
  have hexec : execute_command env args st = Except.ok
      ((if c.code ≠ "" then [Event.printed ("Runtime Disassembly: \n" ++ c.easm)] else []) ++
       (if c.creation_code ≠ "" then
          [Event.printed ("Disassembly: \n" ++ c.creation_easm)] else []) ++
       [Event.exited 0]) := by
    rw [execute_command]
    simp only [hs, Bool.false_eq_true, if_false, hd, if_true, hcs]
  refine ⟨by rw [hexec]; rfl, _, hexec, ?_, ?_, ?_⟩
  · constructor
    · rintro ⟨s, hmem⟩
      by_cases hc1 : c.code = ""
      · exfalso
        by_cases hc2 : c.creation_code = "" <;>
          simp [hc1, hc2, runtime_header_ne] at hmem
      · exact hc1
    · intro hc1
      refine ⟨c.easm, ?_⟩
      simp [hc1]
  · constructor
    · rintro ⟨s, hmem⟩
      by_cases hc2 : c.creation_code = ""
      · exfalso
        by_cases hc1 : c.code = "" <;>
          simp [hc1, hc2, creation_header_ne] at hmem
      · exact hc2
    · intro hc2
      refine ⟨c.creation_easm, ?_⟩
      simp [hc2]
  · by_cases hc1 : c.code = "" <;> by_cases hc2 : c.creation_code = "" <;>
      simp [hc1, hc2, isErrorRendering]

/-- C8 witness: a disassemble run over a contract that carries both code
fields succeeds. -/
theorem disassemble_sections_witness :
    isOkE (execute_command env0 argsDisasm (env0.loadBytecode "6060604052" false)) = true :=
  (disassemble_sections env0 argsDisasm (env0.loadBytecode "6060604052" false)
    { code := "6060604052", creation_code := "6060604052",
      easm := "PUSH1 0x60", creation_easm := "PUSH1 0x60" }
    [] rfl rfl rfl).1

/-- C8 counterexample: with a contract whose runtime and creation code are
both empty, the Disassemble invocation prints no disassembly section and
still terminates without any failure, refuting that at least one section
must exist or the run fails. -/
theorem disassemble_sections_counterexample :
    parse_args envEmptyContract argsDisasm =
      [Event.bytecodeLoaded "6060604052" false, Event.exited 0] ∧
    (parse_args envEmptyContract argsDisasm).countP (fun e => isErrorRendering e) = 0 ∧
    (parse_args envEmptyContract argsDisasm).countP
      (fun e => match e with
        | Event.printed _ => true
        | _ => false) = 0 :=
  ⟨rfl, rfl, rfl⟩

/-- C9: hash lookup is a pure function of the signature string — any two
validated invocations with the same signature print the identical selector
— and every such invocation prints the selector and exits before any
backend connection or input resolution event occurs. -/
theorem hash_lookup_pure (env : Env) (args args2 : Args)
    (hep : args.epic = false) (hver : args.version = false)
    (hval : validate_args env args = none) (hh : truthyOpt args.hash = true)
    (hep2 : args2.epic = false) (hver2 : args2.version = false)
    (hval2 : validate_args env args2 = none) (hh2 : truthyOpt args2.hash = true)
    (hsame : args2.hash = args.hash) :
    parse_args env args = [Event.printed (env.hashSig (args.hash.getD "")), Event.exited 0] ∧
    parse_args env args2 = parse_args env args ∧
    (∀ e ∈ parse_args env args, isBackendEvent e = false ∧ isInputEvent e = false) := by
  have hq : quick_commands env args =
      some [Event.printed (env.hashSig (args.hash.getD "")), Event.exited 0] := by
    rw [quick_commands]
    simp [hh]
  have hq2 : quick_commands env args2 =
      some [Event.printed (env.hashSig (args2.hash.getD "")), Event.exited 0] := by
    rw [quick_commands]
    simp [hh2]
  have h1 : parse_args env args =
      [Event.printed (env.hashSig (args.hash.getD "")), Event.exited 0] := by
    rw [parse_args]
    simp only [hep, hver, Bool.false_eq_true, if_false]
    rw [hval, hq]
  have h2 : parse_args env args2 =
      [Event.printed (env.hashSig (args2.hash.getD "")), Event.exited 0] := by
    rw [parse_args]
    simp only [hep2, hver2, Bool.false_eq_true, if_false]
    rw [hval2, hq2]
  refine ⟨h1, by rw [h2, h1, hsame], fun e he => ?_⟩
  rw [h1] at he
  simp only [List.mem_cons, List.not_mem_nil, or_false] at he
  rcases he with rfl | rfl
  · exact ⟨rfl, rfl⟩
  · exact ⟨rfl, rfl⟩

/-- C9 witness: two concrete invocations that differ in verbosity but share
the transfer signature print the identical selector with no backend
event. -/
theorem hash_lookup_pure_witness :
    parse_args env0 argsHashA =
      [Event.printed "0xtransfer", Event.exited 0] :=
  (hash_lookup_pure env0 argsHashA argsHashB rfl rfl rfl rfl rfl rfl rfl rfl rfl).1

/-- C10: set_config reads the attribute i that the parser never defines;
whenever the rpc flag is a non-empty string the read is skipped by boolean
short-circuiting and set_config succeeds, but with rpc set to the empty
string, dependency auto-loading not requested and on-chain storage access
not disabled, set_config raises AttributeError, which the pipeline reports
through the generic traceback envelope; the default rpc value is
non-empty. -/
theorem set_config_missing_attribute (env : Env) (args : Args)
    (h : truthyStr args.rpc = true) :
    isOkE (set_config env args) = true ∧
    set_config env argsRpcEmpty = Except.error PyErr.attributeError ∧
    parse_args env argsRpcEmpty = exit_with_error "text" (tracebackOf PyErr.attributeError) ∧
    truthyStr defaultArgs.rpc = true := by
  refine ⟨?_, rfl, rfl, rfl⟩
  rw [set_config]
  by_cases h1 : args.dynld = true
  · simp [h1, isOkE]
  · by_cases h2 : args.no_onchain_storage_access = true
    · simp [h1, h2, isOkE]
    · simp [h1, h2, h, isOkE]

/-- C10 witness: with the default argument set, whose rpc value is the
non-empty default endpoint, set_config succeeds. -/
theorem set_config_missing_attribute_witness :
    isOkE (set_config env0 defaultArgs) = true :=
  (set_config_missing_attribute env0 defaultArgs rfl).1
